import Mathlib

/-!
# Mini-SNTP: a shallow embedding of `ntp.h` and of the consumer in `main.c`

Machine integers are natural numbers (or integers for the signed types) with
the ranges of their C types stated explicitly.  Memory is a list of bytes.
The host byte order is a parameter `le` (`true`: little-endian host,
`false`: big-endian host), because the header stores every multi-byte member
in network byte order and converts with `ntohl`.
-/

namespace MiniSNTP

/-! ## Host memory and byte order -/

/-- Byte `i` of a memory image; a read past the end gives 0. -/
def byteAt (mem : List Nat) (i : Nat) : Nat := mem.getD i 0

/-- Load of a `uint32_t` object stored at offset `off`, in host byte order. -/
def load_u32 (le : Bool) (mem : List Nat) (off : Nat) : Nat :=
  if le then
    byteAt mem off + 256 * byteAt mem (off + 1) + 65536 * byteAt mem (off + 2)
      + 16777216 * byteAt mem (off + 3)
  else
    16777216 * byteAt mem off + 65536 * byteAt mem (off + 1) + 256 * byteAt mem (off + 2)
      + byteAt mem (off + 3)

/-- The four bytes of a `uint32_t` object as the host stores them. -/
def store_u32 (le : Bool) (v : Nat) : List Nat :=
  if le then [v % 256, v / 256 % 256, v / 65536 % 256, v / 16777216 % 256]
  else [v / 16777216 % 256, v / 65536 % 256, v / 256 % 256, v % 256]

/-- Byte swap of a 32-bit value. -/
def bswap32 (x : Nat) : Nat :=
  (x % 256) * 16777216 + (x / 256 % 256) * 65536 + (x / 65536 % 256) * 256
    + (x / 16777216 % 256)

/-- The libc `ntohl`: network (big-endian) to host order.  It swaps the bytes on
a little-endian host and is the identity on a big-endian host. -/
def ntohl (le : Bool) (x : Nat) : Nat := if le then bswap32 x else x

/-- The big-endian value of the four bytes at offset `off`. -/
def be32 (mem : List Nat) (off : Nat) : Nat :=
  16777216 * byteAt mem off + 65536 * byteAt mem (off + 1) + 256 * byteAt mem (off + 2)
    + byteAt mem (off + 3)

/-- The big-endian value of the eight bytes at offset `off`. -/
def be64 (mem : List Nat) (off : Nat) : Nat :=
  4294967296 * be32 mem off + be32 mem (off + 4)

/-! ## Types of `ntp.h` -/

/-- The union `ufixed_32_32_t` (`ntp_timestamp_t`), seen through its struct
member: `integer` is the `uint32_t` at offset 0 and `fraction` the `uint32_t`
at offset 4, both as the host loads them (the content is in network order). -/
structure ntp_timestamp_t where
  integer : Nat
  fraction : Nat
  deriving DecidableEq, Repr

/-- The timestamp object that lies at offset `off` of a memory image. -/
def load_timestamp (le : Bool) (mem : List Nat) (off : Nat) : ntp_timestamp_t :=
  { integer := load_u32 le mem off, fraction := load_u32 le mem (off + 4) }

/-- The `raw` member (`uint64_t`) of the union `ufixed_32_32_t`: it overlays the
two 32-bit members, the one at the lower address being the low half on a
little-endian host and the high half on a big-endian host. -/
def ntp_timestamp_t.raw (le : Bool) (ts : ntp_timestamp_t) : Nat :=
  if le then ts.integer + 4294967296 * ts.fraction
  else 4294967296 * ts.integer + ts.fraction

/-- Values of `ntp_leap_indicator_t`. -/
def NO_WARNING : Nat := 0
/-- Value 1 of `ntp_leap_indicator_t`. -/
def LAST_MINUTE_HAS_61_DECONDS : Nat := 1
/-- Value 2 of `ntp_leap_indicator_t`. -/
def LAST_MINUTE_HAS_59_DECONDS : Nat := 2
/-- Value 3 of `ntp_leap_indicator_t`. -/
def ALARM_CONDITION : Nat := 3

/-- Value 0 of `ntp_mode_t`. -/
def RESERVED : Nat := 0
/-- Value 1 of `ntp_mode_t`. -/
def SYMMETRIC_ACTIVE : Nat := 1
/-- Value 2 of `ntp_mode_t`. -/
def SYMMETRIC_PASSIVE : Nat := 2
/-- Value 3 of `ntp_mode_t`. -/
def CLIENT : Nat := 3
/-- Value 4 of `ntp_mode_t`. -/
def SERVER : Nat := 4
/-- Value 5 of `ntp_mode_t`. -/
def BROADCAST : Nat := 5
/-- Value 6 of `ntp_mode_t`. -/
def RESERVED_6 : Nat := 6
/-- Value 7 of `ntp_mode_t`. -/
def RESERVED_7 : Nat := 7

/-! ## Macros of `ntp.h` -/

/-- The macro `NTP_PORT`. -/
def NTP_PORT : Nat := 123

/-- The macro `NTP_ORIGIN_YEAR`. -/
def NTP_ORIGIN_YEAR : Nat := 1900

/-- The macro `NTP_GET_LI(b1)`: `((b1) & 0b11000000) >> 6`. -/
def NTP_GET_LI (b1 : Nat) : Nat := (b1 &&& 0b11000000) >>> 6

/-- The macro `NTP_GET_VN(b1)`: `((b1) & 0b00111000) >> 3`. -/
def NTP_GET_VN (b1 : Nat) : Nat := (b1 &&& 0b00111000) >>> 3

/-- The macro `NTP_GET_MODE(b1)`: `(b1) & 0b00000111`. -/
def NTP_GET_MODE (b1 : Nat) : Nat := b1 &&& 0b00000111

/-- The macro `NTP_GET_TS_SECONDS_AFTER_MINUTE(ts)`: `ntohl((ts).integer) % 60`. -/
def NTP_GET_TS_SECONDS_AFTER_MINUTE (le : Bool) (ts : ntp_timestamp_t) : Nat :=
  ntohl le ts.integer % 60

/-- The macro `NTP_GET_TS_MINUTES_AFTER_HOUR(ts)`: `(ntohl((ts).integer) / 60) % 60`. -/
def NTP_GET_TS_MINUTES_AFTER_HOUR (le : Bool) (ts : ntp_timestamp_t) : Nat :=
  (ntohl le ts.integer / 60) % 60

/-- The macro `NTP_GET_TS_HOURS_SINCE_MIDNIGHT(ts)`: `(ntohl((ts).integer) / 3600) % 24`. -/
def NTP_GET_TS_HOURS_SINCE_MIDNIGHT (le : Bool) (ts : ntp_timestamp_t) : Nat :=
  (ntohl le ts.integer / 3600) % 24

/-- The macro `NTP_GET_TS_DAYS_SINCE_JAN_1_1900(ts)`: `ntohl((ts).integer) / 86400`. -/
def NTP_GET_TS_DAYS_SINCE_JAN_1_1900 (le : Bool) (ts : ntp_timestamp_t) : Nat :=
  ntohl le ts.integer / 86400

/-- The macro `NTP_IS_LEAP_YEAR(y)`: `(y%4 == 0 && y%100 != 0) || y%400 == 0`. -/
def NTP_IS_LEAP_YEAR (y : Nat) : Bool :=
  (y % 4 == 0 && y % 100 != 0) || y % 400 == 0

/-! ## `ntp_get_date` -/

/-- The local array `days_in_month` of `ntp_get_date` as initialised. -/
def days_in_month_init : List Nat := [31, 28, 31, 30, 31, 30, 31, 31, 30, 31, 30, 31]

/-- The year loop of `ntp_get_date`,
`for (*year = 1900; *year < 2037; (*year)++)`, from a state `(year, day)`.
The first argument is the number of iterations the loop condition still
allows, `2037 - year`: when it is 0 the condition `*year < 2037` is false and
the loop is left with the state unchanged. -/
def year_loop : Nat → Nat → Nat → Nat × Nat
  | 0, year, day => (year, day)
  | n + 1, year, day =>
    if NTP_IS_LEAP_YEAR year then
      if day < 366 then (year, day) else year_loop n (year + 1) (day - 366)
    else
      if day < 365 then (year, day) else year_loop n (year + 1) (day - 365)

/-- The month loop of `ntp_get_date`, `for (*month = 0; *month < 12; (*month)++)`,
from a state `(month, day)`; the first argument is `12 - month`, the number of
iterations the loop condition still allows. -/
def month_loop (days_in_month : List Nat) : Nat → Nat → Nat → Nat × Nat
  | 0, month, day => (month, day)
  | n + 1, month, day =>
    if day ≥ days_in_month.getD month 0 then
      month_loop days_in_month n (month + 1) (day - days_in_month.getD month 0)
    else (month, day)

/-- The table `days_in_month` of `ntp_get_date` after the February adjustment
`if (NTP_IS_LEAP_YEAR(*year)) days_in_month[1] = 29;`. -/
def days_in_month_of (year : Nat) : List Nat :=
  if NTP_IS_LEAP_YEAR year then days_in_month_init.set 1 29 else days_in_month_init

/-- The function `ntp_get_date(ts, &year, &month, &day)`: the three outputs as a triple
`(year, month, day)`. -/
def ntp_get_date (le : Bool) (ts : ntp_timestamp_t) : Nat × Nat × Nat :=
  let day := NTP_GET_TS_DAYS_SINCE_JAN_1_1900 le ts
  let yd := year_loop (2037 - NTP_ORIGIN_YEAR) NTP_ORIGIN_YEAR day
  let days_in_month := days_in_month_of yd.1
  let md := month_loop days_in_month 12 0 yd.2
  (yd.1, md.1, md.2)

/-! ## Object layout

Sizes and alignments follow the usual C ABI rules: a scalar is aligned to its
size, a struct places each member at the next multiple of the member's
alignment and is padded to a multiple of its own alignment, a union is as
large as its largest member, and `__attribute__((packed))` removes padding and
gives alignment 1. -/

/-- Size and alignment of a C type. -/
structure CType where
  size : Nat
  align : Nat
  deriving DecidableEq, Repr

/-- The type `uint8_t`. -/
def uint8_t : CType := ⟨1, 1⟩
/-- The type `int8_t`. -/
def int8_t : CType := ⟨1, 1⟩
/-- The type `char`. -/
def char_t : CType := ⟨1, 1⟩
/-- The type `uint32_t`. -/
def uint32_t : CType := ⟨4, 4⟩
/-- The type `int32_t`. -/
def int32_t : CType := ⟨4, 4⟩
/-- The type `uint64_t`. -/
def uint64_t : CType := ⟨8, 8⟩

/-- The array type `t[n]`. -/
def c_array (t : CType) (n : Nat) : CType := ⟨t.size * n, t.align⟩

/-- The least multiple of `a` that is at least `n`. -/
def round_up (n a : Nat) : Nat := (n + a - 1) / a * a

/-- Offsets of the members of a struct, laid out in order from `off`. -/
def struct_offsets (packed : Bool) : Nat → List CType → List Nat
  | _, [] => []
  | off, t :: ts =>
    (if packed then off else round_up off t.align)
      :: struct_offsets packed ((if packed then off else round_up off t.align) + t.size) ts

/-- Offset of the first byte after the last member. -/
def struct_end (packed : Bool) : Nat → List CType → Nat
  | off, [] => off
  | off, t :: ts =>
    struct_end packed ((if packed then off else round_up off t.align) + t.size) ts

/-- Largest alignment among `ts` (1 for none). -/
def max_align (ts : List CType) : Nat := ts.foldl (fun a t => max a t.align) 1

/-- A struct type; `packed` is `__attribute__((packed))`. -/
def c_struct (packed : Bool) (members : List CType) : CType :=
  if packed then ⟨struct_end true 0 members, 1⟩
  else ⟨round_up (struct_end false 0 members) (max_align members), max_align members⟩

/-- A union type. -/
def c_union (members : List CType) : CType :=
  ⟨round_up (members.foldl (fun a t => max a t.size) 0) (max_align members), max_align members⟩

/-- Layout of `ufixed_16_16_t`: `union { struct { uint8_t integer; uint8_t fraction; };
uint32_t raw; }`. -/
def ufixed_16_16_t.ctype : CType := c_union [c_struct false [uint8_t, uint8_t], uint32_t]

/-- Layout of `fixed_16_16_t`: `union { struct { int8_t integer; uint8_t fraction; };
int32_t raw; }`. -/
def fixed_16_16_t.ctype : CType := c_union [c_struct false [int8_t, uint8_t], int32_t]

/-- Layout of `ufixed_32_32_t`: `union { struct { uint32_t integer; uint32_t fraction; };
uint64_t raw; }`. -/
def ufixed_32_32_t.ctype : CType := c_union [c_struct false [uint32_t, uint32_t], uint64_t]

/-- Layout of `ntp_timestamp_t`, a typedef of `ufixed_32_32_t`. -/
def ntp_timestamp_t.ctype : CType := ufixed_32_32_t.ctype

/-- The members of `ntp_packet_t`, in declaration order. -/
inductive ntp_packet_member
  | byte_1
  | stratum
  | poll
  | precision
  | root_delay
  | root_dispersion
  | reference_identifier
  | reference_timestamp
  | originate_timestamp
  | recieve_timestamp
  | transmit_timestamp
  | key_identifier
  | mesage_digest
  deriving DecidableEq, Repr

/-- The member declarations of `struct PACKED { ... } ntp_packet_t`. -/
def ntp_packet_t.members : List (ntp_packet_member × CType) :=
  [ (.byte_1, uint8_t),
    (.stratum, uint8_t),
    (.poll, uint8_t),
    (.precision, int8_t),
    (.root_delay, fixed_16_16_t.ctype),
    (.root_dispersion, ufixed_16_16_t.ctype),
    (.reference_identifier, c_array char_t 4),
    (.reference_timestamp, ntp_timestamp_t.ctype),
    (.originate_timestamp, ntp_timestamp_t.ctype),
    (.recieve_timestamp, ntp_timestamp_t.ctype),
    (.transmit_timestamp, ntp_timestamp_t.ctype),
    (.key_identifier, uint32_t),
    (.mesage_digest, c_array uint32_t 4) ]

/-- Layout of `ntp_packet_t`, a packed struct. -/
def ntp_packet_t.ctype : CType := c_struct true (ntp_packet_t.members.map Prod.snd)

/-- The value of `sizeof(ntp_packet_t)`. -/
def ntp_packet_t.sizeof : Nat := ntp_packet_t.ctype.size

/-- The value of `offsetof(ntp_packet_t, m)`. -/
def ntp_packet_t.offsetof (m : ntp_packet_member) : Nat :=
  ((ntp_packet_t.members.map Prod.fst).zip
      (struct_offsets true 0 (ntp_packet_t.members.map Prod.snd))).lookup m |>.getD 0

/-- The size of member `m` of `ntp_packet_t`. -/
def ntp_packet_t.member_size (m : ntp_packet_member) : Nat :=
  (ntp_packet_t.members.lookup m).elim 0 CType.size

/-! ## Packet values and their object representation -/

/-- The union `fixed_16_16_t`, through its member `raw` (`int32_t`), which
covers all four bytes of the object. -/
structure fixed_16_16_t where
  raw : Int
  deriving DecidableEq, Repr

/-- The union `ufixed_16_16_t`, through its member `raw` (`uint32_t`), which
covers all four bytes of the object. -/
structure ufixed_16_16_t where
  raw : Nat
  deriving DecidableEq, Repr

/-- The struct `ntp_packet_t`: one value per member, in declaration order.
`reference_identifier` is the `char[4]` as four bytes and `mesage_digest` the
`uint32_t[4]` as four words. -/
structure ntp_packet_t where
  byte_1 : Nat
  stratum : Nat
  poll : Nat
  precision : Int
  root_delay : fixed_16_16_t
  root_dispersion : ufixed_16_16_t
  reference_identifier : List Nat
  reference_timestamp : ntp_timestamp_t
  originate_timestamp : ntp_timestamp_t
  recieve_timestamp : ntp_timestamp_t
  transmit_timestamp : ntp_timestamp_t
  key_identifier : Nat
  mesage_digest : List Nat
  deriving DecidableEq, Repr

/-- The timestamp members hold 32-bit values. -/
def ntp_timestamp_t.valid (ts : ntp_timestamp_t) : Prop :=
  ts.integer < 4294967296 ∧ ts.fraction < 4294967296

instance (ts : ntp_timestamp_t) : Decidable ts.valid := by
  unfold ntp_timestamp_t.valid; infer_instance

/-- Every member holds a value of its C type. -/
def ntp_packet_t.valid (p : ntp_packet_t) : Prop :=
  p.byte_1 < 256 ∧ p.stratum < 256 ∧ p.poll < 256 ∧
  (-128 ≤ p.precision ∧ p.precision ≤ 127) ∧
  (-2147483648 ≤ p.root_delay.raw ∧ p.root_delay.raw ≤ 2147483647) ∧
  p.root_dispersion.raw < 4294967296 ∧
  (p.reference_identifier.length = 4 ∧ ∀ c ∈ p.reference_identifier, c < 256) ∧
  p.reference_timestamp.valid ∧ p.originate_timestamp.valid ∧
  p.recieve_timestamp.valid ∧ p.transmit_timestamp.valid ∧
  p.key_identifier < 4294967296 ∧
  (p.mesage_digest.length = 4 ∧ ∀ w ∈ p.mesage_digest, w < 4294967296)

instance (p : ntp_packet_t) : Decidable p.valid := by
  unfold ntp_packet_t.valid; infer_instance

/-- The bit pattern of a signed 8-bit value. -/
def to_u8 (v : Int) : Nat := (v % 256).toNat

/-- The signed 8-bit value of a bit pattern. -/
def as_int8 (u : Nat) : Int := if u < 128 then (u : Int) else (u : Int) - 256

/-- The bit pattern of a signed 32-bit value. -/
def to_u32 (v : Int) : Nat := (v % 4294967296).toNat

/-- The signed 32-bit value of a bit pattern. -/
def as_int32 (u : Nat) : Int := if u < 2147483648 then (u : Int) else (u : Int) - 4294967296

/-- The eight bytes of a timestamp object: `integer` at offset 0, `fraction` at
offset 4. -/
def store_timestamp (le : Bool) (ts : ntp_timestamp_t) : List Nat :=
  store_u32 le ts.integer ++ store_u32 le ts.fraction

/-- The object representation of an `ntp_packet_t`: the bytes of its members
one after the other (the struct is packed). -/
def ntp_packet_t.store (le : Bool) (p : ntp_packet_t) : List Nat :=
  [p.byte_1 % 256] ++ [p.stratum % 256] ++ [p.poll % 256] ++ [to_u8 p.precision]
    ++ store_u32 le (to_u32 p.root_delay.raw)
    ++ store_u32 le p.root_dispersion.raw
    ++ (p.reference_identifier.map (· % 256)).take 4
    ++ store_timestamp le p.reference_timestamp
    ++ store_timestamp le p.originate_timestamp
    ++ store_timestamp le p.recieve_timestamp
    ++ store_timestamp le p.transmit_timestamp
    ++ store_u32 le p.key_identifier
    ++ ((p.mesage_digest.take 4).map (store_u32 le)).flatten

/-- The member values of the `ntp_packet_t` object that occupies `mem`: each
member is read at its offset in the struct. -/
def ntp_packet_t.load (le : Bool) (mem : List Nat) : ntp_packet_t :=
  { byte_1 := byteAt mem (ntp_packet_t.offsetof .byte_1)
    stratum := byteAt mem (ntp_packet_t.offsetof .stratum)
    poll := byteAt mem (ntp_packet_t.offsetof .poll)
    precision := as_int8 (byteAt mem (ntp_packet_t.offsetof .precision))
    root_delay := ⟨as_int32 (load_u32 le mem (ntp_packet_t.offsetof .root_delay))⟩
    root_dispersion := ⟨load_u32 le mem (ntp_packet_t.offsetof .root_dispersion)⟩
    reference_identifier :=
      (List.range 4).map (fun i => byteAt mem (ntp_packet_t.offsetof .reference_identifier + i))
    reference_timestamp := load_timestamp le mem (ntp_packet_t.offsetof .reference_timestamp)
    originate_timestamp := load_timestamp le mem (ntp_packet_t.offsetof .originate_timestamp)
    recieve_timestamp := load_timestamp le mem (ntp_packet_t.offsetof .recieve_timestamp)
    transmit_timestamp := load_timestamp le mem (ntp_packet_t.offsetof .transmit_timestamp)
    key_identifier := load_u32 le mem (ntp_packet_t.offsetof .key_identifier)
    mesage_digest :=
      (List.range 4).map
        (fun i => load_u32 le mem (ntp_packet_t.offsetof .mesage_digest + 4 * i)) }

/-- An `ntp_packet_t` whose members are all zero, as `= {0}` initialises it. -/
def ntp_packet_t.zero : ntp_packet_t :=
  { byte_1 := 0, stratum := 0, poll := 0, precision := 0, root_delay := ⟨0⟩,
    root_dispersion := ⟨0⟩, reference_identifier := [0, 0, 0, 0],
    reference_timestamp := ⟨0, 0⟩, originate_timestamp := ⟨0, 0⟩,
    recieve_timestamp := ⟨0, 0⟩, transmit_timestamp := ⟨0, 0⟩,
    key_identifier := 0, mesage_digest := [0, 0, 0, 0] }

/-- The macro `NTP_REQUEST_MSG`, the initialiser `{ .byte_1 = 0b000100011 }`: the
designated member gets the value, every other member is zero-initialised. -/
def NTP_REQUEST_MSG : ntp_packet_t := { ntp_packet_t.zero with byte_1 := 0b000100011 }

/-! ## The consumer `main.c` -/

/-- The client message of `main`: `ntp_packet_t client_msg = NTP_REQUEST_MSG;`. -/
def main_client_msg : ntp_packet_t := NTP_REQUEST_MSG

/-- The length that `main` passes to `sendto`: `sizeof(client_msg)`. -/
def main_sendto_len : Nat := ntp_packet_t.sizeof

/-- The bytes that `sendto(fd, &client_msg, sizeof(client_msg), ...)` sends: the
first `sizeof(client_msg)` bytes of the object `client_msg`. -/
def main_request (le : Bool) : List Nat := (main_client_msg.store le).take main_sendto_len

/-- The capacity that `main` passes to `recv`: `sizeof(server_msg)`. -/
def main_recv_len : Nat := ntp_packet_t.sizeof

/-- Modelled from the spec: the macro `KISS_O_DEATH_MESAGE`, which `main.c` uses
and no file under src/ defines; stratum 0 signals a kiss-of-death message. -/
def KISS_O_DEATH_MESAGE : Nat := 0

/-- Modelled from the spec: the macro `PRIMARY_REFERENCE`, which `main.c` uses
and no file under src/ defines; stratum 1 signals a primary reference. -/
def PRIMARY_REFERENCE : Nat := 1

/-- Modelled from the spec: the macro `LAST_SECONDARY_REFERENCE`, which `main.c`
uses and no file under src/ defines; strata 2 to 15 are secondary references. -/
def LAST_SECONDARY_REFERENCE : Nat := 15

/-- What the `STRATUM` line of `main` shows. -/
inductive stratum_text
  | KISS_O_DEATH_MSG
  | PRIMARY_REFERENCE
  | SECONDARY_REFERENCE (stratum : Nat)
  | number (stratum : Nat)
  deriving DecidableEq, Repr

/-- The four `printf_ts` headers that `main` uses. -/
inductive ts_header
  | ORIGINATE_TIMESTAMP
  | REFERENCE_TIMESTAMP
  | RECIEVE_TIMESTAMP
  | TRANSMIT_TIMESTAMP
  deriving DecidableEq, Repr

/-- One line that `main` prints about the reply, with the values it shows.  A
timestamp line shows hours, minutes, seconds, day + 1, month + 1 and year (the
milliseconds, computed in floating point by a macro that no file under src/
defines, are left out). -/
inductive printed_line
  | recieved (i : Int) (size : Nat)
  | LI (v : Nat)
  | VN (v : Nat)
  | MODE (v : Nat)
  | STRATUM (t : stratum_text)
  | POLL_INTERVAL (v : Nat)
  | PRECISION (v : Int)
  | ROOT_DELAY (v : Int)
  | ROOT_DISPRESION (v : Int)
  | REF_ID (chars : List Nat)
  | timestamp (header : ts_header) (h mi s d mo y : Nat)
  deriving DecidableEq, Repr

/-- The function `printf_ts(header, ts)` of `main.c`. -/
def printf_ts (le : Bool) (header : ts_header) (ts : ntp_timestamp_t) : printed_line :=
  let s := NTP_GET_TS_SECONDS_AFTER_MINUTE le ts
  let mi := NTP_GET_TS_MINUTES_AFTER_HOUR le ts
  let h := NTP_GET_TS_HOURS_SINCE_MIDNIGHT le ts
  let ymd := ntp_get_date le ts
  .timestamp header h mi s (ymd.2.2 + 1) (ymd.2.1 + 1) ymd.1

/-- The stratum branches of `main`. -/
def main_stratum (stratum : Nat) : stratum_text :=
  if stratum = KISS_O_DEATH_MESAGE then .KISS_O_DEATH_MSG
  else if stratum = PRIMARY_REFERENCE then .PRIMARY_REFERENCE
  else if stratum ≥ PRIMARY_REFERENCE ∧ stratum ≤ LAST_SECONDARY_REFERENCE then
    .SECONDARY_REFERENCE stratum
  else .number stratum

/-- The libc `recv` on a datagram socket: it copies the first `len` bytes of the
datagram over the start of the buffer, leaves the rest of the buffer as it was,
and returns the number of bytes copied. -/
def recv (buf : List Nat) (len : Nat) (datagram : List Nat) : Int × List Nat :=
  ((min datagram.length len : Nat), datagram.take len ++ buf.drop (min datagram.length len))

/-- The part of `main` after `recv`: the lines printed from the return value `i`
of `recv` and from the object `server_msg`, whose bytes are `mem`. -/
def main_print (le : Bool) (i : Int) (mem : List Nat) : List printed_line :=
  let server_msg := ntp_packet_t.load le mem
  [ .recieved i ntp_packet_t.sizeof,
    .LI (NTP_GET_LI server_msg.byte_1),
    .VN (NTP_GET_VN server_msg.byte_1),
    .MODE (NTP_GET_MODE server_msg.byte_1),
    .STRATUM (main_stratum server_msg.stratum),
    .POLL_INTERVAL server_msg.poll,
    .PRECISION server_msg.precision,
    .ROOT_DELAY (as_int32 (ntohl le (to_u32 server_msg.root_delay.raw))),
    .ROOT_DISPRESION (as_int32 (ntohl le server_msg.root_dispersion.raw)),
    .REF_ID (server_msg.reference_identifier.takeWhile (· ≠ 0)),
    printf_ts le .ORIGINATE_TIMESTAMP server_msg.originate_timestamp,
    printf_ts le .REFERENCE_TIMESTAMP server_msg.reference_timestamp,
    printf_ts le .RECIEVE_TIMESTAMP server_msg.recieve_timestamp,
    printf_ts le .TRANSMIT_TIMESTAMP server_msg.transmit_timestamp ]

/-- The object `server_msg` of `main` as initialised by `= {0}`: all bytes zero. -/
def main_server_msg_init : List Nat := List.replicate ntp_packet_t.sizeof 0

/-- The function `main` from `recv` on, for a reply `datagram` that the socket
delivers: `i = recv(fd, &server_msg, sizeof(server_msg), 0)` and then the
printing of the fields of `server_msg`. -/
def main_reply (le : Bool) (datagram : List Nat) : List printed_line :=
  main_print le (recv main_server_msg_init main_recv_len datagram).1
    (recv main_server_msg_init main_recv_len datagram).2

/-- A reply cut to 20 bytes: status byte 0x24, stratum 2, poll 6, precision -20,
root delay 1, root dispersion 2, reference identifier "GPS", and the first
four bytes of the reference timestamp. -/
def short_reply : List Nat :=
  [0x24, 2, 6, 0xEC, 0, 0, 0, 1, 0, 0, 0, 2, 71, 80, 83, 0, 0xE0, 0, 0, 0]

/-- A server reply with every member set: status byte 0x24, stratum 2, poll 6,
precision -20, root delay -3, reference identifier "GPS", and timestamps. -/
def sample_packet : ntp_packet_t :=
  { byte_1 := 0x24, stratum := 2, poll := 6, precision := -20, root_delay := ⟨-3⟩,
    root_dispersion := ⟨0x01020304⟩, reference_identifier := [71, 80, 83, 0],
    reference_timestamp := ⟨0xE0000000, 1⟩, originate_timestamp := ⟨2, 3⟩,
    recieve_timestamp := ⟨0xDEADBEEF, 4⟩, transmit_timestamp := ⟨4294967295, 4294967295⟩,
    key_identifier := 7, mesage_digest := [1, 2, 3, 0xFFFFFFFF] }

/-! ## The 16.16 unions and their struct members -/

/-- The `ufixed_16_16_t` object that lies at offset `off` of a memory image. -/
def load_ufixed_16_16 (le : Bool) (mem : List Nat) (off : Nat) : ufixed_16_16_t :=
  ⟨load_u32 le mem off⟩

/-- The `fixed_16_16_t` object that lies at offset `off` of a memory image. -/
def load_fixed_16_16 (le : Bool) (mem : List Nat) (off : Nat) : fixed_16_16_t :=
  ⟨as_int32 (load_u32 le mem off)⟩

/-- The member `integer` of `ufixed_16_16_t`, declared `uint8_t` as the first
member of the anonymous struct: the byte at offset 0 of the object. -/
def ufixed_16_16_t.integer (le : Bool) (v : ufixed_16_16_t) : Nat :=
  byteAt (store_u32 le v.raw) 0

/-- The member `fraction` of `ufixed_16_16_t`, declared `uint8_t` as the second
member of the anonymous struct: the byte at offset 1 of the object. -/
def ufixed_16_16_t.fraction (le : Bool) (v : ufixed_16_16_t) : Nat :=
  byteAt (store_u32 le v.raw) 1

/-- The member `integer` of `fixed_16_16_t`, declared `int8_t` as the first
member of the anonymous struct: the byte at offset 0 of the object, signed. -/
def fixed_16_16_t.integer (le : Bool) (v : fixed_16_16_t) : Int :=
  as_int8 (byteAt (store_u32 le (to_u32 v.raw)) 0)

/-- The member `fraction` of `fixed_16_16_t`, declared `uint8_t` as the second
member of the anonymous struct: the byte at offset 1 of the object. -/
def fixed_16_16_t.fraction (le : Bool) (v : fixed_16_16_t) : Nat :=
  byteAt (store_u32 le (to_u32 v.raw)) 1

/-- The wire bytes 00 01 80 00: the unsigned 16.16 value 1.5, with integer part
0x0001 and fraction part 0x8000. -/
def wire_one_and_a_half : List Nat := [0x00, 0x01, 0x80, 0x00]

/-- The wire bytes 00 01 00 00: the unsigned 16.16 value 1.0. -/
def wire_one : List Nat := [0x00, 0x01, 0x00, 0x00]

/-! ## The Gregorian calendar, as the specification words it -/

/-- A year is a leap year when it is divisible by 4 and not by 100, or
divisible by 400. -/
def is_leap_year (y : Nat) : Prop := (4 ∣ y ∧ ¬ 100 ∣ y) ∨ 400 ∣ y

instance (y : Nat) : Decidable (is_leap_year y) := by
  unfold is_leap_year; infer_instance

/-- Length of a year in days: 366 for a leap year, 365 otherwise. -/
def year_length (y : Nat) : Nat := if is_leap_year y then 366 else 365

/-- Length in days of month `m` (0 = January) of year `y`; February has 29
days in a leap year.  There is no month past index 11. -/
def month_length (y m : Nat) : Nat :=
  match m with
  | 0 => 31
  | 1 => if is_leap_year y then 29 else 28
  | 2 => 31
  | 3 => 30
  | 4 => 31
  | 5 => 30
  | 6 => 31
  | 7 => 31
  | 8 => 30
  | 9 => 31
  | 10 => 30
  | 11 => 31
  | _ => 0

/-- Sum of the lengths of the years `1900 .. year - 1`. -/
def days_before_year (year : Nat) : Nat :=
  ((List.range' 1900 (year - 1900)).map year_length).sum

/-- Sum of the lengths of the months `0 .. month - 1` of `year`. -/
def days_before_month (year month : Nat) : Nat :=
  ((List.range' 0 month).map (month_length year)).sum

/-- The upper 16 bits of a 32-bit value. -/
def upper_half (x : Nat) : Nat := x / 65536

/-- The lower 16 bits of a 32-bit value. -/
def lower_half (x : Nat) : Nat := x % 65536

/-- Lexicographic order on dates `(year, month, day)`: `a` is not after `b`. -/
def date_le (a b : Nat × Nat × Nat) : Prop :=
  a.1 < b.1 ∨ (a.1 = b.1 ∧ (a.2.1 < b.2.1 ∨ (a.2.1 = b.2.1 ∧ a.2.2 ≤ b.2.2)))

instance (a b : Nat × Nat × Nat) : Decidable (date_le a b) := by
  unfold date_le; infer_instance

/-! ## Lemmas -/

theorem NTP_IS_LEAP_YEAR_iff (y : Nat) : NTP_IS_LEAP_YEAR y = true ↔ is_leap_year y := by
  unfold NTP_IS_LEAP_YEAR is_leap_year
  simp only [Bool.or_eq_true, Bool.and_eq_true, beq_iff_eq, bne_iff_ne, ne_eq,
    Nat.dvd_iff_mod_eq_zero]

theorem bswap32_lt (x : Nat) : bswap32 x < 4294967296 := by
  unfold bswap32; omega

theorem bswap32_bytes (a b c d : Nat) (ha : a < 256) (hb : b < 256) (hc : c < 256)
    (hd : d < 256) :
    bswap32 (a * 16777216 + b * 65536 + c * 256 + d)
      = d * 16777216 + c * 65536 + b * 256 + a := by
  unfold bswap32; omega

theorem bswap32_bswap32 (x : Nat) (hx : x < 4294967296) : bswap32 (bswap32 x) = x := by
  have e : bswap32 x = (x % 256) * 16777216 + (x / 256 % 256) * 65536
      + (x / 65536 % 256) * 256 + (x / 16777216 % 256) := rfl
  rw [e, bswap32_bytes _ _ _ _ (by omega) (by omega) (by omega) (by omega)]
  have h1 : x / 256 / 256 = x / 65536 := Nat.div_div_eq_div_mul x 256 256
  have h2 : x / 65536 / 256 = x / 16777216 := Nat.div_div_eq_div_mul x 65536 256
  have h3 : x / 16777216 / 256 = x / 4294967296 := Nat.div_div_eq_div_mul x 16777216 256
  omega

theorem ntohl_lt (le : Bool) (x : Nat) (hx : x < 4294967296) : ntohl le x < 4294967296 := by
  unfold ntohl; split
  · exact bswap32_lt x
  · exact hx

/-- Every 32-bit value is the host-order reading of a stored member:
`ntohl` is its own inverse on 32-bit values. -/
theorem ntohl_ntohl (le : Bool) (x : Nat) (hx : x < 4294967296) :
    ntohl le (ntohl le x) = x := by
  unfold ntohl; split
  · exact bswap32_bswap32 x hx
  · rfl

theorem year_loop_spec (n : Nat) : ∀ year day,
    year ≤ (year_loop n year day).1 ∧ (year_loop n year day).1 ≤ year + n ∧
    ((List.range' year ((year_loop n year day).1 - year)).map year_length).sum
      + (year_loop n year day).2 = day ∧
    ((year_loop n year day).2 < year_length (year_loop n year day).1 ∨
      (year_loop n year day).1 = year + n) := by
  induction n with
  | zero => intro year day; simp [year_loop]
  | succ n ih =>
    intro year day
    have step : ∀ len, year_length year = len → ¬ day < len →
        year ≤ (year_loop n (year + 1) (day - len)).1 ∧
        (year_loop n (year + 1) (day - len)).1 ≤ year + (n + 1) ∧
        ((List.range' year ((year_loop n (year + 1) (day - len)).1 - year)).map
          year_length).sum + (year_loop n (year + 1) (day - len)).2 = day ∧
        ((year_loop n (year + 1) (day - len)).2 <
            year_length (year_loop n (year + 1) (day - len)).1 ∨
          (year_loop n (year + 1) (day - len)).1 = year + (n + 1)) := by
      intro len hlen hd
      obtain ⟨h1, h2, h3, h4⟩ := ih (year + 1) (day - len)
      refine ⟨by omega, by omega, ?_, ?_⟩
      · have e : (year_loop n (year + 1) (day - len)).1 - year
            = ((year_loop n (year + 1) (day - len)).1 - (year + 1)) + 1 := by omega
        rw [e, List.range'_succ, List.map_cons, List.sum_cons, hlen]
        omega
      · rcases h4 with h4 | h4
        · exact Or.inl h4
        · exact Or.inr (by omega)
    by_cases hl : NTP_IS_LEAP_YEAR year = true
    · have hlen : year_length year = 366 := by
        simp [year_length, (NTP_IS_LEAP_YEAR_iff year).1 hl]
      by_cases hd : day < 366
      · simp [year_loop, hl, hd, hlen]
      · simp only [year_loop, hl, hd, if_true, if_false]
        exact step 366 hlen hd
    · have hn : ¬ is_leap_year year := fun h => hl ((NTP_IS_LEAP_YEAR_iff year).2 h)
      have hlen : year_length year = 365 := by simp [year_length, hn]
      by_cases hd : day < 365
      · simp [year_loop, hl, hd, hlen]
      · simp only [year_loop, hl, hd, if_false]
        exact step 365 hlen hd

theorem month_loop_spec (dim : List Nat) (n : Nat) : ∀ month day,
    month ≤ (month_loop dim n month day).1 ∧ (month_loop dim n month day).1 ≤ month + n ∧
    ((List.range' month ((month_loop dim n month day).1 - month)).map
        (fun i => dim.getD i 0)).sum + (month_loop dim n month day).2 = day ∧
    ((month_loop dim n month day).2 < dim.getD (month_loop dim n month day).1 0 ∨
      (month_loop dim n month day).1 = month + n) := by
  induction n with
  | zero => intro month day; simp [month_loop]
  | succ n ih =>
    intro month day
    by_cases hd : day ≥ dim.getD month 0
    · simp only [month_loop, hd, if_true]
      obtain ⟨h1, h2, h3, h4⟩ := ih (month + 1) (day - dim.getD month 0)
      refine ⟨by omega, by omega, ?_, ?_⟩
      · have e : (month_loop dim n (month + 1) (day - dim.getD month 0)).1 - month
            = ((month_loop dim n (month + 1) (day - dim.getD month 0)).1 - (month + 1)) + 1 := by
          omega
        rw [e, List.range'_succ, List.map_cons, List.sum_cons]
        omega
      · rcases h4 with h4 | h4
        · exact Or.inl h4
        · exact Or.inr (by omega)
    · simp only [month_loop, hd, if_false]
      refine ⟨le_refl _, by omega, by simp, Or.inl (by omega)⟩

theorem days_in_month_of_getD (y m : Nat) :
    (days_in_month_of y).getD m 0 = month_length y m := by
  by_cases hl : NTP_IS_LEAP_YEAR y = true
  · have h := (NTP_IS_LEAP_YEAR_iff y).1 hl
    rcases m with _ | _ | _ | _ | _ | _ | _ | _ | _ | _ | _ | _ | m <;>
      simp [days_in_month_of, days_in_month_init, month_length, hl, h]
  · have h : ¬ is_leap_year y := fun h => hl ((NTP_IS_LEAP_YEAR_iff y).2 h)
    rcases m with _ | _ | _ | _ | _ | _ | _ | _ | _ | _ | _ | _ | m <;>
      simp [days_in_month_of, days_in_month_init, month_length, hl, h]

theorem months_sum (y : Nat) :
    ((List.range' 0 12).map (month_length y)).sum = year_length y := by
  by_cases h : is_leap_year y <;>
    simp [List.range', month_length, year_length, h]

theorem month_length_le (y m : Nat) : month_length y m ≤ 31 := by
  rcases m with _ | _ | _ | _ | _ | _ | _ | _ | _ | _ | _ | _ | m <;>
    simp [month_length]
  split <;> omega

set_option maxRecDepth 100000 in
theorem years_1900_2036 : ((List.range' 1900 137).map year_length).sum = 50039 := by
  decide

theorem ntp_get_date_eq (le : Bool) (ts : ntp_timestamp_t) :
    ntp_get_date le ts =
      ((year_loop 137 1900 (ntohl le ts.integer / 86400)).1,
       (month_loop (days_in_month_of (year_loop 137 1900 (ntohl le ts.integer / 86400)).1) 12 0
          (year_loop 137 1900 (ntohl le ts.integer / 86400)).2).1,
       (month_loop (days_in_month_of (year_loop 137 1900 (ntohl le ts.integer / 86400)).1) 12 0
          (year_loop 137 1900 (ntohl le ts.integer / 86400)).2).2) := rfl

/-- The year loop on a day count below 50039 (the days of 1900..2036): it ends
by `break`, in a year before 2037, with the remaining days inside that year. -/
theorem year_loop_in_range (d : Nat) (hd : d < 50039) :
    1900 ≤ (year_loop 137 1900 d).1 ∧ (year_loop 137 1900 d).1 ≤ 2036 ∧
    days_before_year (year_loop 137 1900 d).1 + (year_loop 137 1900 d).2 = d ∧
    (year_loop 137 1900 d).2 < year_length (year_loop 137 1900 d).1 := by
  obtain ⟨h1, h2, h3, h4⟩ := year_loop_spec 137 1900 d
  have hne : (year_loop 137 1900 d).1 ≠ 2037 := by
    intro h
    rw [h] at h3
    have := years_1900_2036
    simp only [Nat.reduceSub] at h3
    omega
  have hlt : (year_loop 137 1900 d).2 < year_length (year_loop 137 1900 d).1 := by
    rcases h4 with h4 | h4
    · exact h4
    · exact absurd h4 hne
  exact ⟨h1, by omega, h3, hlt⟩

/-- The month loop on a day count inside the year: it ends by `break`, at a
month index below 12, with the remaining days inside that month. -/
theorem month_loop_in_range (y d : Nat) (hd : d < year_length y) :
    (month_loop (days_in_month_of y) 12 0 d).1 ≤ 11 ∧
    days_before_month y (month_loop (days_in_month_of y) 12 0 d).1
      + (month_loop (days_in_month_of y) 12 0 d).2 = d ∧
    (month_loop (days_in_month_of y) 12 0 d).2
      < month_length y (month_loop (days_in_month_of y) 12 0 d).1 := by
  obtain ⟨_, h2, h3, h4⟩ := month_loop_spec (days_in_month_of y) 12 0 d
  have hf : (fun i => (days_in_month_of y).getD i 0) = month_length y :=
    funext (days_in_month_of_getD y)
  rw [hf] at h3
  rw [days_in_month_of_getD] at h4
  simp only [Nat.sub_zero] at h3
  have hne : (month_loop (days_in_month_of y) 12 0 d).1 ≠ 12 := by
    intro h
    rw [h, months_sum] at h3
    omega
  have hlt : (month_loop (days_in_month_of y) 12 0 d).2
      < month_length y (month_loop (days_in_month_of y) 12 0 d).1 := by
    rcases h4 with h4 | h4
    · exact h4
    · exact absurd (by omega) hne
  exact ⟨by omega, h3, hlt⟩

theorem days_lt (le : Bool) (x : Nat) (hx : x < 4294967296) : ntohl le x / 86400 < 50039 := by
  have := ntohl_lt le x hx
  omega

theorem byteAt_lt (mem : List Nat) (hb : ∀ b ∈ mem, b < 256) (i : Nat) :
    byteAt mem i < 256 := by
  unfold byteAt
  by_cases h : i < mem.length
  · rw [List.getD_eq_getElem _ _ h]
    exact hb _ (List.getElem_mem h)
  · rw [List.getD_eq_default _ _ (by omega)]
    decide

/-- On either host, `ntohl` of a loaded `uint32_t` is the big-endian value of
its four bytes. -/
theorem ntohl_load_u32 (le : Bool) (mem : List Nat) (hb : ∀ b ∈ mem, b < 256) (off : Nat) :
    ntohl le (load_u32 le mem off) = be32 mem off := by
  have h0 := byteAt_lt mem hb off
  have h1 := byteAt_lt mem hb (off + 1)
  have h2 := byteAt_lt mem hb (off + 2)
  have h3 := byteAt_lt mem hb (off + 3)
  cases le
  · simp [ntohl, load_u32, be32]
  · simp only [ntohl, load_u32, be32, if_true]
    have e : byteAt mem off + 256 * byteAt mem (off + 1) + 65536 * byteAt mem (off + 2)
        + 16777216 * byteAt mem (off + 3)
        = byteAt mem (off + 3) * 16777216 + byteAt mem (off + 2) * 65536
          + byteAt mem (off + 1) * 256 + byteAt mem off := by omega
    rw [e, bswap32_bytes _ _ _ _ h3 h2 h1 h0]
    omega

theorem be32_lt (mem : List Nat) (hb : ∀ b ∈ mem, b < 256) (off : Nat) :
    be32 mem off < 4294967296 := by
  have h0 := byteAt_lt mem hb off
  have h1 := byteAt_lt mem hb (off + 1)
  have h2 := byteAt_lt mem hb (off + 2)
  have h3 := byteAt_lt mem hb (off + 3)
  unfold be32; omega

theorem u32_bytes_le (v : Nat) (hv : v < 4294967296) :
    v % 256 + 256 * (v / 256 % 256) + 65536 * (v / 65536 % 256)
      + 16777216 * (v / 16777216 % 256) = v := by
  have h1 : v / 256 / 256 = v / 65536 := Nat.div_div_eq_div_mul v 256 256
  have h2 : v / 65536 / 256 = v / 16777216 := Nat.div_div_eq_div_mul v 65536 256
  have h3 : v / 16777216 / 256 = v / 4294967296 := Nat.div_div_eq_div_mul v 16777216 256
  omega

theorem u32_bytes_be (v : Nat) (hv : v < 4294967296) :
    16777216 * (v / 16777216 % 256) + 65536 * (v / 65536 % 256) + 256 * (v / 256 % 256)
      + v % 256 = v := by
  have := u32_bytes_le v hv
  omega

theorem as_int8_to_u8 (v : Int) (h1 : -128 ≤ v) (h2 : v ≤ 127) : as_int8 (to_u8 v) = v := by
  unfold as_int8 to_u8
  split <;> omega

theorem as_int32_to_u32 (v : Int) (h1 : -2147483648 ≤ v) (h2 : v ≤ 2147483647) :
    as_int32 (to_u32 v) = v := by
  unfold as_int32 to_u32
  split <;> omega

theorem to_u32_lt (v : Int) : to_u32 v < 4294967296 := by
  unfold to_u32; omega

theorem length_four (l : List Nat) (h : l.length = 4) :
    ∃ a b c d, l = [a, b, c, d] := by
  match l, h with
  | [a, b, c, d], _ => exact ⟨a, b, c, d, rfl⟩

theorem offsetof_eq (m : ntp_packet_member) :
    ntp_packet_t.offsetof m =
      match m with
      | .byte_1 => 0
      | .stratum => 1
      | .poll => 2
      | .precision => 3
      | .root_delay => 4
      | .root_dispersion => 8
      | .reference_identifier => 12
      | .reference_timestamp => 16
      | .originate_timestamp => 24
      | .recieve_timestamp => 32
      | .transmit_timestamp => 40
      | .key_identifier => 48
      | .mesage_digest => 52 := by
  cases m <;> decide

theorem load_store (le : Bool) (p : ntp_packet_t) (hp : p.valid) :
    ntp_packet_t.load le (p.store le) = p := by
  obtain ⟨b1, st, po, pr, ⟨rd⟩, ⟨rdisp⟩, rid, ⟨ri, rf⟩, ⟨oi, ofr⟩, ⟨ci, cf⟩, ⟨ti, tf⟩, kid, md⟩ := p
  obtain ⟨h1, h2, h3, ⟨h4, h4b⟩, ⟨h5, h5b⟩, h6, ⟨h7, h7b⟩, ⟨h8, h8b⟩, ⟨h9, h9b⟩,
    ⟨h10, h10b⟩, ⟨h11, h11b⟩, h12, ⟨h13, h13b⟩⟩ := hp
  simp only at h1 h2 h3 h4 h4b h5 h5b h6 h7 h7b h8 h8b h9 h9b h10 h10b h11 h11b h12 h13 h13b
  obtain ⟨c0, c1, c2, c3, rfl⟩ := length_four rid h7
  obtain ⟨d0, d1, d2, d3, rfl⟩ := length_four md h13
  simp only [List.mem_cons, List.mem_singleton, forall_eq_or_imp, forall_eq, List.not_mem_nil,
    false_imp_iff, implies_true, and_true] at h7b h13b
  cases le
  · simp [ntp_packet_t.load, ntp_packet_t.store, offsetof_eq, store_timestamp, store_u32,
      load_u32, load_timestamp, byteAt, List.range, List.range.loop]
    simp [*, u32_bytes_be, to_u32_lt, as_int8_to_u8, as_int32_to_u32]
  · simp [ntp_packet_t.load, ntp_packet_t.store, offsetof_eq, store_timestamp, store_u32,
      load_u32, load_timestamp, byteAt, List.range, List.range.loop]
    simp [*, u32_bytes_le, to_u32_lt, as_int8_to_u8, as_int32_to_u32]

theorem store_length (le : Bool) (p : ntp_packet_t) (hp : p.valid) :
    (p.store le).length = 68 := by
  obtain ⟨_, _, _, _, _, _, ⟨h7, _⟩, _, _, _, _, _, ⟨h13, _⟩⟩ := hp
  obtain ⟨c0, c1, c2, c3, e1⟩ := length_four _ h7
  obtain ⟨d0, d1, d2, d3, e2⟩ := length_four _ h13
  cases le <;> simp [ntp_packet_t.store, store_timestamp, store_u32, e1, e2]

theorem recv_full (datagram : List Nat) (h : datagram.length = 68) :
    (recv main_server_msg_init main_recv_len datagram).2 = datagram := by
  have e : main_recv_len = 68 := by decide
  have e2 : main_server_msg_init.length = 68 := by decide
  simp only [recv, e, h, Nat.min_self]
  rw [List.take_of_length_le (by omega), List.drop_of_length_le (by omega), List.append_nil]

theorem recv_short (datagram : List Nat) (h : datagram.length ≤ 68) :
    recv main_server_msg_init main_recv_len datagram
      = ((datagram.length : Int), datagram ++ List.replicate (68 - datagram.length) 0) := by
  have e : main_recv_len = 68 := by decide
  have e2 : main_server_msg_init = List.replicate 68 0 := by decide
  simp only [recv, e, e2, Nat.min_eq_left h, List.drop_replicate]
  rw [List.take_of_length_le h]

theorem days_before_year_succ (y : Nat) (h : 1900 ≤ y) :
    days_before_year (y + 1) = days_before_year y + year_length y := by
  unfold days_before_year
  have e : y + 1 - 1900 = (y - 1900) + 1 := by omega
  rw [e, List.range'_concat, List.map_append, List.sum_append]
  have e2 : 1900 + (y - 1900) = y := by omega
  simp [e2]

theorem days_before_year_mono (y1 y2 : Nat) (h1 : 1900 ≤ y1) (h : y1 ≤ y2) :
    days_before_year y1 ≤ days_before_year y2 := by
  induction y2, h using Nat.le_induction with
  | base => exact le_refl _
  | succ n hn ih =>
    rw [days_before_year_succ n (by omega)]
    omega

theorem days_before_month_succ (y m : Nat) :
    days_before_month y (m + 1) = days_before_month y m + month_length y m := by
  unfold days_before_month
  rw [List.range'_concat, List.map_append, List.sum_append]
  simp

theorem days_before_month_mono (y m1 m2 : Nat) (h : m1 ≤ m2) :
    days_before_month y m1 ≤ days_before_month y m2 := by
  induction m2, h using Nat.le_induction with
  | base => exact le_refl _
  | succ n hn ih =>
    rw [days_before_month_succ]
    omega

theorem days_before_month_12 (y : Nat) : days_before_month y 12 = year_length y :=
  months_sum y

/-- A date inside its month lies inside its year. -/
theorem day_of_year_lt (y m d : Nat) (hm : m ≤ 11) (hd : d < month_length y m) :
    days_before_month y m + d < year_length y := by
  have h1 := days_before_month_succ y m
  have h2 := days_before_month_mono y (m + 1) 12 (by omega)
  have h3 := days_before_month_12 y
  omega

/-- Two calendar dates are ordered as their day numbers are. -/
theorem date_le_of_ordinal_le (y1 m1 d1 y2 m2 d2 : Nat) (hy2 : 1900 ≤ y2)
    (hm2 : m2 ≤ 11) (hd2 : d2 < month_length y2 m2)
    (h : days_before_year y1 + days_before_month y1 m1 + d1
      ≤ days_before_year y2 + days_before_month y2 m2 + d2) :
    date_le (y1, m1, d1) (y2, m2, d2) := by
  unfold date_le
  simp only
  rcases Nat.lt_trichotomy y1 y2 with hy | hy | hy
  · exact Or.inl hy
  · subst hy
    refine Or.inr ⟨rfl, ?_⟩
    rcases Nat.lt_trichotomy m1 m2 with hm | hm | hm
    · exact Or.inl hm
    · subst hm
      exact Or.inr ⟨rfl, by omega⟩
    · exfalso
      have a1 := days_before_month_succ y1 m2
      have a2 := days_before_month_mono y1 (m2 + 1) m1 (by omega)
      omega
  · exfalso
    have a1 := day_of_year_lt y2 m2 d2 hm2 hd2
    have a2 := days_before_year_succ y2 hy2
    have a3 := days_before_year_mono (y2 + 1) y1 (by omega) (by omega)
    omega

/-- The date that `ntp_get_date` returns, as a day number. -/
theorem ntp_get_date_ordinal (le : Bool) (ts : ntp_timestamp_t)
    (h : ts.integer < 4294967296) :
    (1900 ≤ (ntp_get_date le ts).1 ∧ (ntp_get_date le ts).1 ≤ 2036) ∧
    (ntp_get_date le ts).2.1 ≤ 11 ∧
    days_before_year (ntp_get_date le ts).1
      + days_before_month (ntp_get_date le ts).1 (ntp_get_date le ts).2.1
      + (ntp_get_date le ts).2.2 = ntohl le ts.integer / 86400 ∧
    (ntp_get_date le ts).2.2
      < month_length (ntp_get_date le ts).1 (ntp_get_date le ts).2.1 := by
  simp only [ntp_get_date_eq]
  obtain ⟨y1, y2, y3, y4⟩ := year_loop_in_range _ (days_lt le ts.integer h)
  obtain ⟨m1, m2, m3⟩ := month_loop_in_range _ _ y4
  exact ⟨⟨y1, y2⟩, m1, by omega, m3⟩

/-- The decoded date does not go back when the whole seconds grow. -/
theorem ntp_get_date_mono (le : Bool) (ta tb : ntp_timestamp_t)
    (ha : ta.integer < 4294967296) (hb : tb.integer < 4294967296)
    (hab : ntohl le ta.integer ≤ ntohl le tb.integer) :
    date_le (ntp_get_date le ta) (ntp_get_date le tb) := by
  obtain ⟨_, _, a3, _⟩ := ntp_get_date_ordinal le ta ha
  obtain ⟨⟨b1, _⟩, b2, b3, b4⟩ := ntp_get_date_ordinal le tb hb
  have hd : ntohl le ta.integer / 86400 ≤ ntohl le tb.integer / 86400 :=
    Nat.div_le_div_right hab
  exact date_le_of_ordinal_le (ntp_get_date le ta).1 (ntp_get_date le ta).2.1
    (ntp_get_date le ta).2.2 (ntp_get_date le tb).1 (ntp_get_date le tb).2.1
    (ntp_get_date le tb).2.2 b1 b2 b4 (by omega)

/-! ## Claims -/

/-- C1: for every timestamp whose `integer` member is a 32-bit value, with
`d = ntohl(ts.integer) / 86400`, `ntp_get_date` returns `(year, month, day)`
denoting exactly day `d` counted from 1 January 1900: the lengths of the years
`1900 .. year-1` plus the lengths of the months `0 .. month-1` of `year` plus
`day` equal `d`, and `day` is less than the length of month `month` of `year`
(366-day years and 29-day Februaries exactly in leap years). -/
theorem ntp_get_date_denotes_day (le : Bool) (ts : ntp_timestamp_t)
    (h : ts.integer < 4294967296) :
    1900 ≤ (ntp_get_date le ts).1 ∧
    days_before_year (ntp_get_date le ts).1
      + days_before_month (ntp_get_date le ts).1 (ntp_get_date le ts).2.1
      + (ntp_get_date le ts).2.2 = ntohl le ts.integer / 86400 ∧
    (ntp_get_date le ts).2.2
      < month_length (ntp_get_date le ts).1 (ntp_get_date le ts).2.1 := by
  simp only [ntp_get_date_eq]
  obtain ⟨y1, _, y3, y4⟩ := year_loop_in_range _ (days_lt le ts.integer h)
  obtain ⟨_, m2, m3⟩ := month_loop_in_range _ _ y4
  exact ⟨y1, by omega, m3⟩

/-- C1 at concrete inputs: day 0 gives (1900, 0, 0) and day 365 gives
(1901, 0, 0), on a big-endian and on a little-endian host. -/
theorem ntp_get_date_denotes_day_witness :
    ((0 : Nat) < 4294967296 ∧
      1900 ≤ (ntp_get_date false ⟨0, 0⟩).1 ∧
      days_before_year (ntp_get_date false ⟨0, 0⟩).1
        + days_before_month (ntp_get_date false ⟨0, 0⟩).1 (ntp_get_date false ⟨0, 0⟩).2.1
        + (ntp_get_date false ⟨0, 0⟩).2.2 = ntohl false 0 / 86400 ∧
      (ntp_get_date false ⟨0, 0⟩).2.2
        < month_length (ntp_get_date false ⟨0, 0⟩).1 (ntp_get_date false ⟨0, 0⟩).2.1) ∧
    ntp_get_date false ⟨0, 0⟩ = (1900, 0, 0) ∧
    ntp_get_date false ⟨365 * 86400, 0⟩ = (1901, 0, 0) ∧
    ntohl true 0x8033E101 = 365 * 86400 ∧
    ntp_get_date true ⟨0x8033E101, 0⟩ = (1901, 0, 0) :=
  ⟨⟨by decide, ntp_get_date_denotes_day false ⟨0, 0⟩ (by decide)⟩,
    by decide, by decide, by decide, by decide⟩

/-- C2: for every timestamp whose `integer` member is a 32-bit value,
`ntp_get_date` returns a year in [1900, 2036], a month in [0, 11] and a day in
[0, 30]; the year loop is left by `break` with the remaining days inside the
current year (the cap `year < 2037` is never what stops it), and the month loop
is left by `break` at an index inside the 12-entry table. -/
theorem ntp_get_date_ranges (le : Bool) (ts : ntp_timestamp_t)
    (h : ts.integer < 4294967296) :
    (1900 ≤ (ntp_get_date le ts).1 ∧ (ntp_get_date le ts).1 ≤ 2036) ∧
    (ntp_get_date le ts).2.1 ≤ 11 ∧
    (ntp_get_date le ts).2.2 ≤ 30 ∧
    ((year_loop (2037 - NTP_ORIGIN_YEAR) NTP_ORIGIN_YEAR
          (NTP_GET_TS_DAYS_SINCE_JAN_1_1900 le ts)).1 < 2037 ∧
      (year_loop (2037 - NTP_ORIGIN_YEAR) NTP_ORIGIN_YEAR
          (NTP_GET_TS_DAYS_SINCE_JAN_1_1900 le ts)).2
        < (if NTP_IS_LEAP_YEAR (ntp_get_date le ts).1 then 366 else 365)) ∧
    ((ntp_get_date le ts).2.1 < (days_in_month_of (ntp_get_date le ts).1).length ∧
      (ntp_get_date le ts).2.2
        < (days_in_month_of (ntp_get_date le ts).1).getD (ntp_get_date le ts).2.1 0) := by
  have e1 : year_loop (2037 - NTP_ORIGIN_YEAR) NTP_ORIGIN_YEAR
      (NTP_GET_TS_DAYS_SINCE_JAN_1_1900 le ts)
      = year_loop 137 1900 (ntohl le ts.integer / 86400) := rfl
  simp only [e1, ntp_get_date_eq]
  obtain ⟨y1, y2, _, y4⟩ := year_loop_in_range _ (days_lt le ts.integer h)
  obtain ⟨m1, _, m3⟩ := month_loop_in_range _ _ y4
  have hm := month_length_le (year_loop 137 1900 (ntohl le ts.integer / 86400)).1
    (month_loop (days_in_month_of (year_loop 137 1900 (ntohl le ts.integer / 86400)).1) 12 0
      (year_loop 137 1900 (ntohl le ts.integer / 86400)).2).1
  have hlen : ∀ y, (days_in_month_of y).length = 12 := by
    intro y; unfold days_in_month_of; split <;> simp [days_in_month_init]
  have hyl : ∀ y, (if NTP_IS_LEAP_YEAR y = true then 366 else 365) = year_length y := by
    intro y
    by_cases hl : NTP_IS_LEAP_YEAR y = true
    · simp [hl, year_length, (NTP_IS_LEAP_YEAR_iff y).1 hl]
    · have hn : ¬ is_leap_year y := fun h => hl ((NTP_IS_LEAP_YEAR_iff y).2 h)
      simp [hl, year_length, hn]
  refine ⟨⟨y1, y2⟩, m1, by omega, ⟨by omega, ?_⟩, ⟨?_, ?_⟩⟩
  · simp only [hyl]; exact y4
  · simp only [hlen]; omega
  · simp only [days_in_month_of_getD]; exact m3

/-- C2 at the largest timestamp, 2^32 - 1, which decodes to 7 February 2036. -/
theorem ntp_get_date_ranges_witness :
    (4294967295 : Nat) < 4294967296 ∧
    ntp_get_date false ⟨4294967295, 0⟩ = (2036, 1, 6) ∧
    (1900 ≤ (ntp_get_date false ⟨4294967295, 0⟩).1 ∧
      (ntp_get_date false ⟨4294967295, 0⟩).1 ≤ 2036) :=
  ⟨by decide, by decide, (ntp_get_date_ranges false ⟨4294967295, 0⟩ (by decide)).1⟩

/-- C3: for every timestamp, with `w = ntohl(ts.integer)` the whole seconds in
host order, the time-of-day macros give seconds = w mod 60,
minutes = (w / 60) mod 60, hours = (w / 3600) mod 24 and days = w / 86400, with
seconds < 60, minutes < 60, hours < 24, and
days * 86400 + hours * 3600 + minutes * 60 + seconds = w.  For w = 3661 they
give hours = 1, minutes = 1, seconds = 1; every 32-bit `w` is the whole-seconds
value of a stored timestamp (of the one whose `integer` member is `ntohl w`). -/
theorem time_of_day_decomposition (le : Bool) (ts : ntp_timestamp_t) :
    (NTP_GET_TS_SECONDS_AFTER_MINUTE le ts = ntohl le ts.integer % 60 ∧
      NTP_GET_TS_MINUTES_AFTER_HOUR le ts = (ntohl le ts.integer / 60) % 60 ∧
      NTP_GET_TS_HOURS_SINCE_MIDNIGHT le ts = (ntohl le ts.integer / 3600) % 24 ∧
      NTP_GET_TS_DAYS_SINCE_JAN_1_1900 le ts = ntohl le ts.integer / 86400) ∧
    (NTP_GET_TS_SECONDS_AFTER_MINUTE le ts < 60 ∧
      NTP_GET_TS_MINUTES_AFTER_HOUR le ts < 60 ∧
      NTP_GET_TS_HOURS_SINCE_MIDNIGHT le ts < 24) ∧
    NTP_GET_TS_DAYS_SINCE_JAN_1_1900 le ts * 86400
      + NTP_GET_TS_HOURS_SINCE_MIDNIGHT le ts * 3600
      + NTP_GET_TS_MINUTES_AFTER_HOUR le ts * 60
      + NTP_GET_TS_SECONDS_AFTER_MINUTE le ts = ntohl le ts.integer ∧
    (NTP_GET_TS_HOURS_SINCE_MIDNIGHT false ⟨3661, 0⟩ = 1 ∧
      NTP_GET_TS_MINUTES_AFTER_HOUR false ⟨3661, 0⟩ = 1 ∧
      NTP_GET_TS_SECONDS_AFTER_MINUTE false ⟨3661, 0⟩ = 1) ∧
    (∀ w, ntohl le (ntohl le (w % 4294967296)) = w % 4294967296) := by
  unfold NTP_GET_TS_SECONDS_AFTER_MINUTE NTP_GET_TS_MINUTES_AFTER_HOUR
    NTP_GET_TS_HOURS_SINCE_MIDNIGHT NTP_GET_TS_DAYS_SINCE_JAN_1_1900
  refine ⟨⟨rfl, rfl, rfl, rfl⟩, ⟨by omega, by omega, by omega⟩, by omega,
    ⟨by decide, by decide, by decide⟩,
    fun w => ntohl_ntohl le _ (Nat.mod_lt w (by decide))⟩

set_option maxRecDepth 100000 in
/-- C4: for every status byte `b` below 256, `NTP_GET_LI(b)` is bits 7-6 of `b`
(a value in 0..3), `NTP_GET_VN(b)` is bits 5-3 (0..7) and `NTP_GET_MODE(b)` is
bits 2-0 (0..7), and `b = 64 * LI + 8 * VN + Mode`. -/
theorem status_byte_fields (b : Nat) (hb : b < 256) :
    (NTP_GET_LI b = b / 64 % 4 ∧ NTP_GET_LI b ≤ 3) ∧
    (NTP_GET_VN b = b / 8 % 8 ∧ NTP_GET_VN b ≤ 7) ∧
    (NTP_GET_MODE b = b % 8 ∧ NTP_GET_MODE b ≤ 7) ∧
    b = 64 * NTP_GET_LI b + 8 * NTP_GET_VN b + NTP_GET_MODE b := by
  revert b
  decide

/-- C4 at the status byte `0b00100011`: LI = NO_WARNING, VN = 4, Mode = CLIENT. -/
theorem status_byte_fields_witness :
    (0b00100011 < 256 ∧
      0b00100011 = 64 * NTP_GET_LI 0b00100011 + 8 * NTP_GET_VN 0b00100011
        + NTP_GET_MODE 0b00100011) ∧
    NTP_GET_LI 0b00100011 = NO_WARNING ∧ NTP_GET_VN 0b00100011 = 4 ∧
    NTP_GET_MODE 0b00100011 = CLIENT :=
  ⟨⟨by decide, (status_byte_fields 0b00100011 (by decide)).2.2.2⟩,
    by decide, by decide, by decide⟩

/-- C5: the status byte of `NTP_REQUEST_MSG` has LI = NO_WARNING, VN = 4 and
Mode = CLIENT, and every other member of the packet (stratum, poll, precision,
root delay, root dispersion, reference identifier, the four timestamps, key
identifier, digest) is zero; it is the message `main` sends. -/
theorem request_msg_fields :
    (NTP_GET_LI NTP_REQUEST_MSG.byte_1 = NO_WARNING ∧
      NTP_GET_VN NTP_REQUEST_MSG.byte_1 = 4 ∧
      NTP_GET_MODE NTP_REQUEST_MSG.byte_1 = CLIENT) ∧
    NTP_REQUEST_MSG.stratum = 0 ∧ NTP_REQUEST_MSG.poll = 0 ∧
    NTP_REQUEST_MSG.precision = 0 ∧ NTP_REQUEST_MSG.root_delay.raw = 0 ∧
    NTP_REQUEST_MSG.root_dispersion.raw = 0 ∧
    NTP_REQUEST_MSG.reference_identifier = [0, 0, 0, 0] ∧
    NTP_REQUEST_MSG.reference_timestamp = ⟨0, 0⟩ ∧
    NTP_REQUEST_MSG.originate_timestamp = ⟨0, 0⟩ ∧
    NTP_REQUEST_MSG.recieve_timestamp = ⟨0, 0⟩ ∧
    NTP_REQUEST_MSG.transmit_timestamp = ⟨0, 0⟩ ∧
    NTP_REQUEST_MSG.key_identifier = 0 ∧
    NTP_REQUEST_MSG.mesage_digest = [0, 0, 0, 0] ∧
    main_client_msg = NTP_REQUEST_MSG ∧
    (∀ le, main_request le = 0b00100011 :: List.replicate 67 0) := by
  refine ⟨by decide, rfl, rfl, rfl, rfl, rfl, rfl, rfl, rfl, rfl, rfl, rfl, rfl, rfl, ?_⟩
  decide

/-- C6: in `ntp_packet_t` the status byte is at offset 0, stratum at 1, poll at
2, precision at 3, root delay at 4 (4 bytes), root dispersion at 8 (4 bytes),
reference identifier at 12 (4 bytes), reference timestamp at 16, originate
timestamp at 24, receive timestamp at 32 and transmit timestamp at 40 (8 bytes
each, ending at offset 48), in that order and with no padding: each member
starts where the previous one ends. -/
theorem packet_layout_offsets :
    (ntp_packet_t.members.take 11).map
        (fun m => (m.1, ntp_packet_t.offsetof m.1, ntp_packet_t.member_size m.1))
      = [ (.byte_1, 0, 1), (.stratum, 1, 1), (.poll, 2, 1), (.precision, 3, 1),
          (.root_delay, 4, 4), (.root_dispersion, 8, 4), (.reference_identifier, 12, 4),
          (.reference_timestamp, 16, 8), (.originate_timestamp, 24, 8),
          (.recieve_timestamp, 32, 8), (.transmit_timestamp, 40, 8) ] ∧
    ntp_packet_t.offsetof .transmit_timestamp
      + ntp_packet_t.member_size .transmit_timestamp = 48 ∧
    struct_end true 0 ((ntp_packet_t.members.take 11).map Prod.snd) = 48 := by
  decide

/-- C7, as stated, fails: the size of `ntp_packet_t`, which is the number of
bytes `main` sends and the capacity it receives into, is not 48. -/
theorem packet_size_ne_48 :
    ntp_packet_t.sizeof ≠ 48 ∧ main_sendto_len ≠ 48 ∧ main_recv_len ≠ 48 ∧
    (main_request true).length ≠ 48 := by
  decide

/-- C7, amended: the size of `ntp_packet_t`, which is the number of bytes the
client sends as its request and the capacity it receives a reply into, is 68:
the 48 bytes that end with the transmit timestamp, followed by the 4-byte key
identifier at offset 48 and the 16-byte message digest at offset 52. -/
theorem packet_size_68 :
    ntp_packet_t.sizeof = 68 ∧ main_sendto_len = 68 ∧ main_recv_len = 68 ∧
    (∀ le, (main_request le).length = 68) ∧
    ntp_packet_t.offsetof .transmit_timestamp
      + ntp_packet_t.member_size .transmit_timestamp = 48 ∧
    (ntp_packet_t.offsetof .key_identifier = 48 ∧
      ntp_packet_t.member_size .key_identifier = 4) ∧
    (ntp_packet_t.offsetof .mesage_digest = 52 ∧
      ntp_packet_t.member_size .mesage_digest = 16) := by
  decide

set_option maxRecDepth 100000 in
/-- C8, as stated, fails: for the 20-byte reply `short_reply` the consumer
reports every field of the reply, among them the originate, receive and
transmit timestamps, which lie at offsets 24 to 47 and are shown as
00:00:00 01/01/1900; and the bytes of `server_msg` past offset 19 are read,
since other bytes there give other timestamp lines. -/
theorem short_reply_is_reported :
    short_reply.length = 20 ∧
    main_reply true short_reply =
      [ .recieved 20 68, .LI 0, .VN 4, .MODE 4, .STRATUM (.SECONDARY_REFERENCE 2),
        .POLL_INTERVAL 6, .PRECISION (-20), .ROOT_DELAY 1, .ROOT_DISPRESION 2,
        .REF_ID [71, 80, 83],
        .timestamp .ORIGINATE_TIMESTAMP 0 0 0 1 1 1900,
        .timestamp .REFERENCE_TIMESTAMP 11 39 44 2 2 2019,
        .timestamp .RECIEVE_TIMESTAMP 0 0 0 1 1 1900,
        .timestamp .TRANSMIT_TIMESTAMP 0 0 0 1 1 1900 ] ∧
    (main_print true 20 (short_reply ++ List.replicate 48 255)).drop 12
      = [ .timestamp .RECIEVE_TIMESTAMP 6 28 15 7 2 2036,
          .timestamp .TRANSMIT_TIMESTAMP 6 28 15 7 2 2036 ] := by
  decide

/-- C8, amended: decoding a reply shorter than 48 bytes does not fail, there is
no length check: for every received length n < 48 the consumer reports the
received count n and then every field of `server_msg`, whose bytes are the n
received bytes followed by the zero bytes of its initialisation; so the bytes
at offsets n and above are read, as zeros. -/
theorem short_reply_reported_with_zeros (le : Bool) (datagram : List Nat)
    (h : datagram.length < 48) :
    main_reply le datagram
      = main_print le datagram.length
          (datagram ++ List.replicate (ntp_packet_t.sizeof - datagram.length) 0) ∧
    (main_reply le datagram).length = 14 := by
  have e : ntp_packet_t.sizeof = 68 := by decide
  unfold main_reply
  rw [recv_short datagram (by omega), e]
  exact ⟨rfl, rfl⟩

/-- C8 amended, at the 20-byte reply `short_reply` on a little-endian host. -/
theorem short_reply_reported_with_zeros_witness :
    short_reply.length < 48 ∧
    main_reply true short_reply
      = main_print true short_reply.length
          (short_reply ++ List.replicate (ntp_packet_t.sizeof - short_reply.length) 0) ∧
    (main_reply true short_reply).length = 14 :=
  ⟨by decide, short_reply_reported_with_zeros true short_reply (by decide)⟩

/-- C9: for every packet whose members hold values of their C types, the object
representation (the members written at their offsets, 68 bytes) read back
member by member gives the same packet, also when the bytes come back through
`recv` into `server_msg`. -/
theorem packet_round_trip (le : Bool) (p : ntp_packet_t) (hp : p.valid) :
    ntp_packet_t.load le (p.store le) = p ∧
    (p.store le).length = ntp_packet_t.sizeof ∧
    ntp_packet_t.load le (recv main_server_msg_init main_recv_len (p.store le)).2 = p := by
  have hl := store_length le p hp
  refine ⟨load_store le p hp, hl, ?_⟩
  rw [recv_full _ hl]
  exact load_store le p hp

/-- C9 at `sample_packet`, on a little-endian host. -/
theorem packet_round_trip_witness :
    sample_packet.valid ∧
    ntp_packet_t.load true (sample_packet.store true) = sample_packet ∧
    (sample_packet.store true).length = ntp_packet_t.sizeof ∧
    ntp_packet_t.load true
      (recv main_server_msg_init main_recv_len (sample_packet.store true)).2 = sample_packet :=
  ⟨by decide, packet_round_trip true sample_packet (by decide)⟩

/-- C10: for every timestamp as its eight bytes lie in memory (at any offset
`off`), on either host, `ntohl` of the member `integer` is the high 32 bits of
the 64-bit big-endian value of the eight bytes, `ntohl` of the member
`fraction` is its low 32 bits, and the 64-bit value is
`integer * 2^32 + fraction`; the whole seconds the macros use are therefore
the same on a little-endian and on a big-endian host. -/
theorem timestamp_wire_halves (le : Bool) (mem : List Nat) (off : Nat)
    (hb : ∀ b ∈ mem, b < 256) :
    ntohl le (load_timestamp le mem off).integer = be64 mem off / 4294967296 ∧
    ntohl le (load_timestamp le mem off).fraction = be64 mem off % 4294967296 ∧
    be64 mem off = ntohl le (load_timestamp le mem off).integer * 4294967296
      + ntohl le (load_timestamp le mem off).fraction ∧
    ntohl true (load_timestamp true mem off).integer
      = ntohl false (load_timestamp false mem off).integer ∧
    NTP_GET_TS_DAYS_SINCE_JAN_1_1900 le (load_timestamp le mem off)
      = be64 mem off / 4294967296 / 86400 := by
  have hi := ntohl_load_u32 le mem hb off
  have hf := ntohl_load_u32 le mem hb (off + 4)
  have h1 := be32_lt mem hb off
  have h2 := be32_lt mem hb (off + 4)
  have ht := ntohl_load_u32 true mem hb off
  have hfa := ntohl_load_u32 false mem hb off
  have hq : (4294967296 * be32 mem off + be32 mem (off + 4)) / 4294967296 = be32 mem off := by
    omega
  refine ⟨?_, ?_, ?_, ?_, ?_⟩
  · simp only [load_timestamp, be64, hi, hq]
  · simp only [load_timestamp, be64, hf]; omega
  · simp only [load_timestamp, be64, hi, hf]; omega
  · simp only [load_timestamp, ht, hfa]
  · simp only [load_timestamp, NTP_GET_TS_DAYS_SINCE_JAN_1_1900, be64, hi, hq]

/-- C10 at the wire bytes E0 00 00 00 80 00 00 00 on a little-endian host: whole
seconds 0xE0000000 and fraction 0x80000000. -/
theorem timestamp_wire_halves_witness :
    (∀ b ∈ [0xE0, 0, 0, 0, 0x80, 0, 0, 0], b < 256) ∧
    ntohl true (load_timestamp true [0xE0, 0, 0, 0, 0x80, 0, 0, 0] 0).integer
      = be64 [0xE0, 0, 0, 0, 0x80, 0, 0, 0] 0 / 4294967296 ∧
    be64 [0xE0, 0, 0, 0, 0x80, 0, 0, 0] 0 = 0xE000000080000000 ∧
    ntohl true (load_timestamp true [0xE0, 0, 0, 0, 0x80, 0, 0, 0] 0).integer = 0xE0000000 ∧
    ntohl true (load_timestamp true [0xE0, 0, 0, 0, 0x80, 0, 0, 0] 0).fraction = 0x80000000 :=
  ⟨by decide,
    (timestamp_wire_halves true [0xE0, 0, 0, 0, 0x80, 0, 0, 0] 0 (by decide)).1,
    by decide, by decide, by decide⟩

/-- C11 fails on the code at the wire bytes 00 01 80 00, the 16.16 value 1.5:
after byte-order conversion the raw value is 0x00018000, with upper half 0x0001
and lower half 0x8000, but the members `integer` and `fraction` of both 16.16
unions are the single bytes at offsets 0 and 1 of the object, here 0 and 1; the
wire bytes 00 01 00 00 give the same two members from a different raw value, so
the two parts do not determine the 32 bits.  This holds on either host. -/
theorem fixed_16_16_members_are_bytes :
    ∀ le : Bool,
      (ntohl le (load_ufixed_16_16 le wire_one_and_a_half 0).raw = 0x00018000 ∧
        upper_half 0x00018000 = 0x0001 ∧ lower_half 0x00018000 = 0x8000) ∧
      ((load_ufixed_16_16 le wire_one_and_a_half 0).integer le = 0 ∧
        (load_ufixed_16_16 le wire_one_and_a_half 0).fraction le = 1) ∧
      ((load_ufixed_16_16 le wire_one 0).integer le
          = (load_ufixed_16_16 le wire_one_and_a_half 0).integer le ∧
        (load_ufixed_16_16 le wire_one 0).fraction le
          = (load_ufixed_16_16 le wire_one_and_a_half 0).fraction le ∧
        (load_ufixed_16_16 le wire_one 0).raw
          ≠ (load_ufixed_16_16 le wire_one_and_a_half 0).raw) ∧
      ((load_fixed_16_16 le wire_one_and_a_half 0).integer le = 0 ∧
        (load_fixed_16_16 le wire_one_and_a_half 0).fraction le = 1 ∧
        (load_fixed_16_16 le wire_one 0).integer le = 0 ∧
        (load_fixed_16_16 le wire_one 0).fraction le = 1 ∧
        (load_fixed_16_16 le wire_one 0).raw
          ≠ (load_fixed_16_16 le wire_one_and_a_half 0).raw) := by
  intro le
  cases le <;> decide

/-- C12: for every two timestamps whose `integer` members are 32-bit values,
with whole seconds a < b in host order, the date that `ntp_get_date` returns
for a is not after the date it returns for b, in lexicographic
(year, month, day) order. -/
theorem ntp_get_date_monotone (le : Bool) (ta tb : ntp_timestamp_t)
    (ha : ta.integer < 4294967296) (hb : tb.integer < 4294967296)
    (hab : ntohl le ta.integer < ntohl le tb.integer) :
    date_le (ntp_get_date le ta) (ntp_get_date le tb) :=
  ntp_get_date_mono le ta tb ha hb (Nat.le_of_lt hab)

/-- C12 at the last second of 1 January 1900 and the first of 2 January 1900. -/
theorem ntp_get_date_monotone_witness :
    ((86399 : Nat) < 4294967296 ∧ (86400 : Nat) < 4294967296 ∧
      ntohl false 86399 < ntohl false 86400) ∧
    date_le (ntp_get_date false ⟨86399, 0⟩) (ntp_get_date false ⟨86400, 0⟩) ∧
    ntp_get_date false ⟨86399, 0⟩ = (1900, 0, 0) ∧
    ntp_get_date false ⟨86400, 0⟩ = (1900, 0, 1) :=
  ⟨⟨by decide, by decide, by decide⟩,
    ntp_get_date_monotone false ⟨86399, 0⟩ ⟨86400, 0⟩ (by decide) (by decide) (by decide),
    by decide, by decide⟩

/-- C13: the fraction member is not consumed: two timestamps with the same
`integer` member `i` and any `fraction` members `f1`, `f2` have the same
seconds after the minute, minutes after the hour, hours since midnight, days
since 1 January 1900 and the same (year, month, day) from `ntp_get_date`; so
do two timestamp objects whose first four bytes are the same. -/
theorem fraction_not_consumed (le : Bool) (i f1 f2 : Nat) :
    NTP_GET_TS_SECONDS_AFTER_MINUTE le ⟨i, f1⟩ = NTP_GET_TS_SECONDS_AFTER_MINUTE le ⟨i, f2⟩ ∧
    NTP_GET_TS_MINUTES_AFTER_HOUR le ⟨i, f1⟩ = NTP_GET_TS_MINUTES_AFTER_HOUR le ⟨i, f2⟩ ∧
    NTP_GET_TS_HOURS_SINCE_MIDNIGHT le ⟨i, f1⟩ = NTP_GET_TS_HOURS_SINCE_MIDNIGHT le ⟨i, f2⟩ ∧
    NTP_GET_TS_DAYS_SINCE_JAN_1_1900 le ⟨i, f1⟩ = NTP_GET_TS_DAYS_SINCE_JAN_1_1900 le ⟨i, f2⟩ ∧
    ntp_get_date le ⟨i, f1⟩ = ntp_get_date le ⟨i, f2⟩ ∧
    (∀ b0 b1 b2 b3 : Nat, ∀ r1 r2 : List Nat,
      NTP_GET_TS_SECONDS_AFTER_MINUTE le (load_timestamp le (b0 :: b1 :: b2 :: b3 :: r1) 0)
        = NTP_GET_TS_SECONDS_AFTER_MINUTE le (load_timestamp le (b0 :: b1 :: b2 :: b3 :: r2) 0) ∧
      NTP_GET_TS_MINUTES_AFTER_HOUR le (load_timestamp le (b0 :: b1 :: b2 :: b3 :: r1) 0)
        = NTP_GET_TS_MINUTES_AFTER_HOUR le (load_timestamp le (b0 :: b1 :: b2 :: b3 :: r2) 0) ∧
      NTP_GET_TS_HOURS_SINCE_MIDNIGHT le (load_timestamp le (b0 :: b1 :: b2 :: b3 :: r1) 0)
        = NTP_GET_TS_HOURS_SINCE_MIDNIGHT le (load_timestamp le (b0 :: b1 :: b2 :: b3 :: r2) 0) ∧
      NTP_GET_TS_DAYS_SINCE_JAN_1_1900 le (load_timestamp le (b0 :: b1 :: b2 :: b3 :: r1) 0)
        = NTP_GET_TS_DAYS_SINCE_JAN_1_1900 le (load_timestamp le (b0 :: b1 :: b2 :: b3 :: r2) 0) ∧
      ntp_get_date le (load_timestamp le (b0 :: b1 :: b2 :: b3 :: r1) 0)
        = ntp_get_date le (load_timestamp le (b0 :: b1 :: b2 :: b3 :: r2) 0)) := by
  refine ⟨rfl, rfl, rfl, rfl, rfl, ?_⟩
  intro b0 b1 b2 b3 r1 r2
  exact ⟨rfl, rfl, rfl, rfl, rfl⟩

/-- C14: for every year `y`, `NTP_IS_LEAP_YEAR(y)` holds iff `y` is divisible by 4
and not by 100, or divisible by 400; one turn of the year loop of the date
decoder takes a year of 366 days exactly for those years and of 365 days
otherwise, and the February entry of its month table is 29 exactly for those
years and 28 otherwise.  1900 is not a leap year (365 days, day 365 is
1 January 1901); 1996 and 2000 are leap years (366 days, day 365 of each is its
31 December, and 29 February 2000 is a date). -/
theorem leap_year_rule (y : Nat) :
    (NTP_IS_LEAP_YEAR y = true ↔ (4 ∣ y ∧ ¬ 100 ∣ y) ∨ 400 ∣ y) ∧
    (year_length y = if (4 ∣ y ∧ ¬ 100 ∣ y) ∨ 400 ∣ y then 366 else 365) ∧
    (∀ n day, year_loop (n + 1) y day =
      if day < year_length y then (y, day) else year_loop n (y + 1) (day - year_length y)) ∧
    ((days_in_month_of y).getD 1 0 = if (4 ∣ y ∧ ¬ 100 ∣ y) ∨ 400 ∣ y then 29 else 28) ∧
    (NTP_IS_LEAP_YEAR 1900 = false ∧ NTP_IS_LEAP_YEAR 1996 = true ∧
      NTP_IS_LEAP_YEAR 2000 = true) ∧
    (ntp_get_date false ⟨364 * 86400, 0⟩ = (1900, 11, 30) ∧
      ntp_get_date false ⟨365 * 86400, 0⟩ = (1901, 0, 0) ∧
      ntp_get_date false ⟨59 * 86400, 0⟩ = (1900, 2, 0)) ∧
    (ntp_get_date false ⟨(35063 + 365) * 86400, 0⟩ = (1996, 11, 30) ∧
      ntp_get_date false ⟨(35063 + 366) * 86400, 0⟩ = (1997, 0, 0)) ∧
    (ntp_get_date false ⟨36524 * 86400, 0⟩ = (2000, 0, 0) ∧
      ntp_get_date false ⟨(36524 + 59) * 86400, 0⟩ = (2000, 1, 28) ∧
      ntp_get_date false ⟨(36524 + 365) * 86400, 0⟩ = (2000, 11, 30) ∧
      ntp_get_date false ⟨(36524 + 366) * 86400, 0⟩ = (2001, 0, 0)) := by
  have hiff := NTP_IS_LEAP_YEAR_iff y
  refine ⟨hiff, rfl, ?_, ?_, by decide, by decide, by decide, by decide⟩
  · intro n day
    by_cases hl : NTP_IS_LEAP_YEAR y = true
    · have hlen : year_length y = 366 := by simp [year_length, hiff.1 hl]
      simp only [year_loop, hl, if_true, hlen]
    · have hn : ¬ is_leap_year y := fun h => hl (hiff.2 h)
      have hlen : year_length y = 365 := by simp [year_length, hn]
      simp only [year_loop, hl, if_false, hlen]
      rfl
  · have h := days_in_month_of_getD y 1
    rw [h]
    rfl

/-- C15: for every stratum `s`, the consumer shows kiss-of-death iff s = 0,
primary reference iff s = 1, secondary reference carrying s iff 2 <= s <= 15,
and the number s itself otherwise (16 <= s); exactly one of the four cases
applies, the value carried is always s, and the stratum the branches test is
the byte at offset 1 of the reply as received. -/
theorem stratum_classification (s : Nat) :
    (main_stratum s = .KISS_O_DEATH_MSG ↔ s = 0) ∧
    (main_stratum s = .PRIMARY_REFERENCE ↔ s = 1) ∧
    (main_stratum s = .SECONDARY_REFERENCE s ↔ 2 ≤ s ∧ s ≤ 15) ∧
    (main_stratum s = .number s ↔ 16 ≤ s) ∧
    (main_stratum s = .KISS_O_DEATH_MSG ∨ main_stratum s = .PRIMARY_REFERENCE ∨
      main_stratum s = .SECONDARY_REFERENCE s ∨ main_stratum s = .number s) ∧
    (∀ n, main_stratum s = .SECONDARY_REFERENCE n → n = s) ∧
    (∀ n, main_stratum s = .number n → n = s) ∧
    (∀ le mem, (ntp_packet_t.load le mem).stratum = byteAt mem 1) := by
  have h0 : s = 0 ∨ s = 1 ∨ (2 ≤ s ∧ s ≤ 15) ∨ 16 ≤ s := by omega
  have e0 : s = 0 → main_stratum s = .KISS_O_DEATH_MSG := by
    intro h; subst h; rfl
  have e1 : s = 1 → main_stratum s = .PRIMARY_REFERENCE := by
    intro h; subst h; rfl
  have e2 : 2 ≤ s ∧ s ≤ 15 → main_stratum s = .SECONDARY_REFERENCE s := by
    intro h
    have a : ¬ s = 0 := by omega
    have b : ¬ s = 1 := by omega
    have c : 1 ≤ s := by omega
    simp [main_stratum, KISS_O_DEATH_MESAGE, PRIMARY_REFERENCE, LAST_SECONDARY_REFERENCE,
      a, b, c, h.2]
  have e3 : 16 ≤ s → main_stratum s = .number s := by
    intro h
    have a : ¬ s = 0 := by omega
    have b : ¬ s = 1 := by omega
    have c : ¬ s ≤ 15 := by omega
    simp [main_stratum, KISS_O_DEATH_MESAGE, PRIMARY_REFERENCE, LAST_SECONDARY_REFERENCE,
      a, b, c]
  refine ⟨⟨?_, e0⟩, ⟨?_, e1⟩, ⟨?_, e2⟩, ⟨?_, e3⟩, ?_, ?_, ?_, fun _ _ => rfl⟩
  · intro h
    rcases h0 with h0 | h0 | h0 | h0
    · exact h0
    · rw [e1 h0] at h; cases h
    · rw [e2 h0] at h; cases h
    · rw [e3 h0] at h; cases h
  · intro h
    rcases h0 with h0 | h0 | h0 | h0
    · rw [e0 h0] at h; cases h
    · exact h0
    · rw [e2 h0] at h; cases h
    · rw [e3 h0] at h; cases h
  · intro h
    rcases h0 with h0 | h0 | h0 | h0
    · rw [e0 h0] at h; cases h
    · rw [e1 h0] at h; cases h
    · exact h0
    · rw [e3 h0] at h; cases h
  · intro h
    rcases h0 with h0 | h0 | h0 | h0
    · rw [e0 h0] at h; cases h
    · rw [e1 h0] at h; cases h
    · rw [e2 h0] at h; cases h
    · exact h0
  · rcases h0 with h0 | h0 | h0 | h0
    · exact Or.inl (e0 h0)
    · exact Or.inr (Or.inl (e1 h0))
    · exact Or.inr (Or.inr (Or.inl (e2 h0)))
    · exact Or.inr (Or.inr (Or.inr (e3 h0)))
  · intro n h
    rcases h0 with h0 | h0 | h0 | h0
    · rw [e0 h0] at h; cases h
    · rw [e1 h0] at h; cases h
    · rw [e2 h0] at h; cases h; rfl
    · rw [e3 h0] at h; cases h
  · intro n h
    rcases h0 with h0 | h0 | h0 | h0
    · rw [e0 h0] at h; cases h
    · rw [e1 h0] at h; cases h
    · rw [e2 h0] at h; cases h
    · rw [e3 h0] at h; cases h; rfl

/-- C16: the largest timestamp, whole seconds 2^32 - 1, decodes to year 2036,
month 1, day 6 (7 February 2036) and 06:28:15, on either host, and every
timestamp whose `integer` member is a 32-bit value decodes to a date that is
not after it. -/
theorem largest_timestamp (le : Bool) (ts : ntp_timestamp_t)
    (h : ts.integer < 4294967296) :
    ntohl le 4294967295 = 4294967295 ∧
    ntp_get_date le ⟨4294967295, 0⟩ = (2036, 1, 6) ∧
    (NTP_GET_TS_HOURS_SINCE_MIDNIGHT le ⟨4294967295, 0⟩ = 6 ∧
      NTP_GET_TS_MINUTES_AFTER_HOUR le ⟨4294967295, 0⟩ = 28 ∧
      NTP_GET_TS_SECONDS_AFTER_MINUTE le ⟨4294967295, 0⟩ = 15) ∧
    date_le (ntp_get_date le ts) (2036, 1, 6) := by
  have hmax : ntohl le 4294967295 = 4294967295 := by cases le <;> decide
  have hdate : ntp_get_date le ⟨4294967295, 0⟩ = (2036, 1, 6) := by cases le <;> decide
  refine ⟨hmax, hdate, by cases le <;> decide, ?_⟩
  have hle : ntohl le ts.integer ≤ ntohl le (ntp_timestamp_t.mk 4294967295 0).integer := by
    have := ntohl_lt le ts.integer h
    simp only [hmax]
    omega
  have hm := ntp_get_date_mono le ts ⟨4294967295, 0⟩ h (by decide) hle
  rw [hdate] at hm
  exact hm

/-- C16 at the timestamp 0xE0000000 on a big-endian host, 2 February 2019. -/
theorem largest_timestamp_witness :
    (0xE0000000 : Nat) < 4294967296 ∧
    ntp_get_date false ⟨0xE0000000, 0⟩ = (2019, 1, 1) ∧
    date_le (ntp_get_date false ⟨0xE0000000, 0⟩) (2036, 1, 6) :=
  ⟨by decide, by decide, (largest_timestamp false ⟨0xE0000000, 0⟩ (by decide)).2.2.2⟩

/-- C17: the timestamp of the Unix epoch, whole seconds 2208988800 = 25567 days,
decodes to year 1970, month 0, day 0 with hours = minutes = seconds = 0, on a
big-endian host and (stored as 0x807EAA83) on a little-endian host; 25567 is
the number of days of the years 1900 to 1969. -/
theorem unix_epoch_timestamp :
    (NTP_GET_TS_DAYS_SINCE_JAN_1_1900 false ⟨2208988800, 0⟩ = 25567 ∧
      ntp_get_date false ⟨2208988800, 0⟩ = (1970, 0, 0) ∧
      NTP_GET_TS_HOURS_SINCE_MIDNIGHT false ⟨2208988800, 0⟩ = 0 ∧
      NTP_GET_TS_MINUTES_AFTER_HOUR false ⟨2208988800, 0⟩ = 0 ∧
      NTP_GET_TS_SECONDS_AFTER_MINUTE false ⟨2208988800, 0⟩ = 0) ∧
    (ntohl true 0x807EAA83 = 2208988800 ∧
      NTP_GET_TS_DAYS_SINCE_JAN_1_1900 true ⟨0x807EAA83, 0⟩ = 25567 ∧
      ntp_get_date true ⟨0x807EAA83, 0⟩ = (1970, 0, 0) ∧
      NTP_GET_TS_HOURS_SINCE_MIDNIGHT true ⟨0x807EAA83, 0⟩ = 0 ∧
      NTP_GET_TS_MINUTES_AFTER_HOUR true ⟨0x807EAA83, 0⟩ = 0 ∧
      NTP_GET_TS_SECONDS_AFTER_MINUTE true ⟨0x807EAA83, 0⟩ = 0) ∧
    (days_before_year 1970 = 25567 ∧ 25567 * 86400 = 2208988800) := by
  refine ⟨by decide, by decide, ?_, by decide⟩
  decide

end MiniSNTP
